import Mathlib

/-!
Verification of the EAN → product-URL resolution engine (`app.py`).

Shallow embedding of the resolution engine of the repository's `app.py`:
the identifier normalizer (`sanitize_ean`), the platform classifier
(`_detect_platform_from_html`), the strategy registry (`_search_recipes_for`),
the candidate validators (`_seems_pdp`, `is_valid_pdp`), the generic store
resolver (`lookup_generic` with `fetch_text` / `fetch_json` and
`_first_pdp_from_html_generic`), and the batch scheduler (`process_eans`).

Modelling conventions:
* Python strings are Lean `String`s; `None` is `Option.none`.
* Python's regex character class `\d` (and hence `\D`) matches the Unicode
  decimal digits (category Nd); `pyIsDigit` is the full Nd table.
* `str.strip()` strips the characters on which Python's `str.isspace()` is
  true; `pyIsSpace` is that table.
* The network is an oracle `Net : String → FetchResult`; connection errors
  and timeouts are `FetchResult.failure`, all raised exceptions inside
  `fetch_text`/`fetch_json` are folded into it.
* A fetched HTML page is modelled by its parse-relevant content (`Body`):
  raw text, the canonical `<link>` href, the JSON-LD nodes, the anchor
  hrefs in document order, and the JSON parse of the body when it exists.
  `BeautifulSoup`/`json.loads` are deterministic, so a page is identified
  with its parse.
* `asyncio` orchestration in `process_eans` is modelled by its value-level
  content: `asyncio.gather` keeps the per-store result order, and the
  outcome of one `task_for` invocation (handler value, `TimeoutError`, or
  any other exception) is an `Outcome` supplied by an oracle.
-/

/-! ## Python character classes -/

/-- Unicode decimal digits (category Nd): exactly the characters matched by
Python's regex `\d` (and excluded by `\D`) on `str` patterns. -/
def isNd (n : Nat) : Bool :=
  (0x30 ≤ n && n ≤ 0x39) || (0x660 ≤ n && n ≤ 0x669) || (0x6F0 ≤ n && n ≤ 0x6F9) ||
  (0x7C0 ≤ n && n ≤ 0x7C9) || (0x966 ≤ n && n ≤ 0x96F) || (0x9E6 ≤ n && n ≤ 0x9EF) ||
  (0xA66 ≤ n && n ≤ 0xA6F) || (0xAE6 ≤ n && n ≤ 0xAEF) || (0xB66 ≤ n && n ≤ 0xB6F) ||
  (0xBE6 ≤ n && n ≤ 0xBEF) || (0xC66 ≤ n && n ≤ 0xC6F) || (0xCE6 ≤ n && n ≤ 0xCEF) ||
  (0xD66 ≤ n && n ≤ 0xD6F) || (0xDE6 ≤ n && n ≤ 0xDEF) || (0xE50 ≤ n && n ≤ 0xE59) ||
  (0xED0 ≤ n && n ≤ 0xED9) || (0xF20 ≤ n && n ≤ 0xF29) || (0x1040 ≤ n && n ≤ 0x1049) ||
  (0x1090 ≤ n && n ≤ 0x1099) || (0x17E0 ≤ n && n ≤ 0x17E9) || (0x1810 ≤ n && n ≤ 0x1819) ||
  (0x1946 ≤ n && n ≤ 0x194F) || (0x19D0 ≤ n && n ≤ 0x19D9) || (0x1A80 ≤ n && n ≤ 0x1A89) ||
  (0x1A90 ≤ n && n ≤ 0x1A99) || (0x1B50 ≤ n && n ≤ 0x1B59) || (0x1BB0 ≤ n && n ≤ 0x1BB9) ||
  (0x1C40 ≤ n && n ≤ 0x1C49) || (0x1C50 ≤ n && n ≤ 0x1C59) || (0xA620 ≤ n && n ≤ 0xA629) ||
  (0xA8D0 ≤ n && n ≤ 0xA8D9) || (0xA900 ≤ n && n ≤ 0xA909) || (0xA9D0 ≤ n && n ≤ 0xA9D9) ||
  (0xA9F0 ≤ n && n ≤ 0xA9F9) || (0xAA50 ≤ n && n ≤ 0xAA59) || (0xABF0 ≤ n && n ≤ 0xABF9) ||
  (0xFF10 ≤ n && n ≤ 0xFF19) || (0x104A0 ≤ n && n ≤ 0x104A9) || (0x10D30 ≤ n && n ≤ 0x10D39) ||
  (0x11066 ≤ n && n ≤ 0x1106F) || (0x110F0 ≤ n && n ≤ 0x110F9) || (0x11136 ≤ n && n ≤ 0x1113F) ||
  (0x111D0 ≤ n && n ≤ 0x111D9) || (0x112F0 ≤ n && n ≤ 0x112F9) || (0x11450 ≤ n && n ≤ 0x11459) ||
  (0x114D0 ≤ n && n ≤ 0x114D9) || (0x11650 ≤ n && n ≤ 0x11659) || (0x116C0 ≤ n && n ≤ 0x116C9) ||
  (0x11730 ≤ n && n ≤ 0x11739) || (0x118E0 ≤ n && n ≤ 0x118E9) || (0x11950 ≤ n && n ≤ 0x11959) ||
  (0x11C50 ≤ n && n ≤ 0x11C59) || (0x11D50 ≤ n && n ≤ 0x11D59) || (0x11DA0 ≤ n && n ≤ 0x11DA9) ||
  (0x16A60 ≤ n && n ≤ 0x16A69) || (0x16AC0 ≤ n && n ≤ 0x16AC9) || (0x16B50 ≤ n && n ≤ 0x16B59) ||
  (0x1D7CE ≤ n && n ≤ 0x1D7FF) || (0x1E140 ≤ n && n ≤ 0x1E149) || (0x1E2F0 ≤ n && n ≤ 0x1E2F9) ||
  (0x1E950 ≤ n && n ≤ 0x1E959) || (0x1FBF0 ≤ n && n ≤ 0x1FBF9)

/-- The characters Python's regex `\d` matches in a `str` pattern. -/
def pyIsDigit (c : Char) : Bool := isNd c.toNat

/-- The characters on which Python's `str.isspace()` is true: exactly the
set removed by `str.strip()` with no argument. -/
def isPySpaceN (n : Nat) : Bool :=
  (0x9 ≤ n && n ≤ 0xD) || (0x1C ≤ n && n ≤ 0x20) || n == 0x85 || n == 0xA0 ||
  n == 0x1680 || (0x2000 ≤ n && n ≤ 0x200A) || (0x2028 ≤ n && n ≤ 0x2029) ||
  n == 0x202F || n == 0x205F || n == 0x3000

/-- Python whitespace test on a character. -/
def pyIsSpace (c : Char) : Bool := isPySpaceN c.toNat

/-! ## Python string primitives -/

/-- `str.strip()` on a character list: drop Python whitespace at both ends. -/
def pyStripL (l : List Char) : List Char :=
  ((l.dropWhile pyIsSpace).reverse.dropWhile pyIsSpace).reverse

/-- `str.strip()`. -/
def pyStrip (s : String) : String := String.mk (pyStripL s.toList)

/-- Python substring test `needle in hay`. -/
def pyIn (needle hay : String) : Bool := decide (needle.toList <:+: hay.toList)

/-- Python `s.startswith(pre)`. -/
def pyStartsWith (s pre : String) : Bool := decide (pre.toList <+: s.toList)

/-- Python `s.endswith(suf)`. -/
def pyEndsWith (s suf : String) : Bool := decide (suf.toList <:+ s.toList)

/-- Python `s[:len(s)-n]`, used for the anchored deletion `re.sub(r"\.0$", "", s)`. -/
def strDropRight (s : String) (n : Nat) : String :=
  String.mk (s.toList.take (s.toList.length - n))

/-- Python `s.rstrip("/")`: remove every trailing `/`. -/
def rstripSlash (s : String) : String :=
  String.mk ((s.toList.reverse.dropWhile (· = '/')).reverse)

/-- Python `s.lstrip("/")`: remove every leading `/`. -/
def lstripSlash (s : String) : String :=
  String.mk (s.toList.dropWhile (· = '/'))

/-- Python `s.lower()`. ASCII case folding: every string constant the engine
lowercases or compares against is ASCII. -/
def strLower (s : String) : String := String.mk (s.toList.map Char.toLower)

/-- Python `str(value)` for an optional string (`str(None) = "None"`). -/
def pyStr (v : Option String) : String :=
  match v with
  | none => "None"
  | some s => s

/-! ## `sanitize_ean` (app.py lines 125-134)

```python
def sanitize_ean(value: str) -> str:
    if value is None:
        return ""
    s = str(value).strip()
    s = re.sub(r"\.0$", "", s)
    s = re.sub(r"\D", "", s)
    return s
```
-/

/-- The identifier normalizer `sanitize_ean`. -/
def sanitize_ean (value : Option String) : String :=
  match value with
  | none => ""
  | some raw =>
    let s := pyStrip raw
    let s := if pyEndsWith s ".0" then strDropRight s 2 else s
    String.mk (s.toList.filter pyIsDigit)

example : sanitize_ean (some "7793742007897.0") = "7793742007897" := by decide
example : sanitize_ean (some " 779-374 ") = "779374" := by decide
example : sanitize_ean (some "٧") = "٧" := by decide
example : sanitize_ean (some "x.0.0") = "0" := by decide
example : sanitize_ean none = "" := by decide

/-! ## `urllib.parse` fragments

`urlparse`/`urlsplit` as used by the engine: only `scheme`, `netloc` and
`path` are consumed.  The embedding follows CPython's `urlsplit`: an optional
`scheme:` head (first character an ASCII letter, the rest letters, digits,
`+`, `-`, `.`), an optional `//netloc` delimited by `/`, `?` or `#`, then the
fragment split at the first `#` and the query at the first `?`.  (The
`;params` split of `urlparse` is not modelled; the engine never passes URLs
with parameters.) -/

structure UrlParts where
  scheme : String
  netloc : String
  path : String
deriving DecidableEq

/-- Characters allowed in a URL scheme after the first letter. -/
def isSchemeChar (c : Char) : Bool :=
  c.isAlpha || c.isDigit || c = '+' || c = '-' || c = '.'

/-- Split a character list at the first occurrence of `c`. -/
def splitFirst (c : Char) : List Char → List Char × Option (List Char)
  | [] => ([], none)
  | x :: xs =>
    if x = c then ([], some xs)
    else
      let r := splitFirst c xs
      (x :: r.1, r.2)

/-- Extract the `scheme:` head of a URL, if syntactically present. -/
def extractScheme (l : List Char) : List Char × List Char :=
  match splitFirst ':' l with
  | (before, some after) =>
    match before with
    | [] => ([], l)
    | c0 :: rest =>
      if c0.isAlpha && rest.all isSchemeChar then ((c0 :: rest).map Char.toLower, after)
      else ([], l)
  | (_, none) => ([], l)

/-- `urllib.parse.urlparse`, restricted to the fields the engine reads. -/
def pyUrlparse (s : String) : UrlParts :=
  let l := s.toList
  let sr := extractScheme l
  let nr :=
    match sr.2 with
    | '/' :: '/' :: rest => rest.span (fun c => c ≠ '/' && c ≠ '?' && c ≠ '#')
    | rest => ([], rest)
  let noFrag := (splitFirst '#' nr.2).1
  let path := (splitFirst '?' noFrag).1
  { scheme := String.mk sr.1, netloc := String.mk nr.1, path := String.mk path }

/-- `_host` (app.py lines 257-261): `urlparse(u).netloc`, total. -/
def host (u : String) : String := (pyUrlparse u).netloc

/-- `urllib.parse.urljoin`, restricted to the shape the engine uses: the base
ends in `/` and the reference is a path without scheme, dot-segments, or a
query/fragment-only form.  A reference starting `//` keeps the base scheme; a
reference starting `/` keeps scheme and authority; otherwise the reference is
appended to the base (whose path already ends in `/`). -/
def urljoinSlash (base rel : String) : String :=
  if rel = "" then base
  else if pyStartsWith rel "//" then (pyUrlparse base).scheme ++ ":" ++ rel
  else if pyStartsWith rel "/" then
    (pyUrlparse base).scheme ++ "://" ++ (pyUrlparse base).netloc ++ rel
  else base ++ rel

example : pyUrlparse "https://store.com.evil.net/item/p" =
    ⟨"https", "store.com.evil.net", "/item/p"⟩ := by decide
example : pyUrlparse "https://s.com/123?_q=123&map=ft" = ⟨"https", "s.com", "/123"⟩ := by
  decide
example : pyUrlparse "/a/b.html#frag" = ⟨"", "", "/a/b.html"⟩ := by decide

/-! ## Candidate validation (app.py lines 84-123 and 252-291) -/

/-- `DISALLOWED_PARTS` (app.py lines 84-88). -/
def DISALLOWED_PARTS : List String :=
  ["/account", "/login", "/orders", "/order", "/cart",
   "/minicart", "/wishlist", "/customer", "#/orders",
   "_q=", "map=ft"]

/-- `BANNED_FRAGMENTS` (app.py lines 252-255). -/
def BANNED_FRAGMENTS : List String :=
  ["/login", "/account", "/customer", "/cart", "/checkout", "/wishlist",
   "/ofertas", "/sale", "/help", "/ayuda"]

/-- The absolute form of a candidate inside `is_valid_pdp`:
`url if url.startswith("http") else urljoin(base_url.rstrip("/") + "/", url)`. -/
def validFullUrl (url base_url : String) : String :=
  if pyStartsWith url "http" then url
  else urljoinSlash (rstripSlash base_url ++ "/") url

/-- `is_valid_pdp` (app.py lines 102-123): VTEX-only candidate validator used
by the legacy VTEX store handler. -/
def is_valid_pdp (url base_url : String) : Bool :=
  if url = "" then false
  else if DISALLOWED_PARTS.any (fun bad => pyIn bad (strLower url)) then false
  else if (pyUrlparse base_url).netloc ≠ "" &&
      !(pyIn (pyUrlparse base_url).netloc
        (pyUrlparse (validFullUrl url base_url)).netloc) then false
  else pyEndsWith (rstripSlash (pyUrlparse (validFullUrl url base_url)).path) "/p"

/-- `_seems_pdp` (app.py lines 270-291): per-platform candidate validator. -/
def seems_pdp (u platform : String) : Bool :=
  let low := strLower u
  if BANNED_FRAGMENTS.any (fun x => pyIn x low) then false
  else
    let path := (pyUrlparse low).path
    if platform = "vtex" then pyEndsWith (rstripSlash path) "/p"
    else if platform = "magento" then pyEndsWith path ".html"
    else if platform = "prestashop" then pyEndsWith path ".html"
    else if platform = "shopify" then pyIn "/products/" path
    else if platform = "woocommerce" then
      pyIn "/product/" path && !(pyIn "/product-category/" path)
    else if platform = "tiendanube" then
      pyIn "/productos/" path && !(pyIn "/colecciones/" path)
    else
      (["/product", "/producto", "/products", "/productos"].any fun seg => pyIn seg path) ||
        pyEndsWith path ".html"

example : seems_pdp "https://store.com/some-product/p" "vtex" = true := by decide
example : seems_pdp "https://store.com/account/orders" "vtex" = false := by decide
example : seems_pdp "https://store.com/orders/item/p" "vtex" = true := by decide
example : is_valid_pdp "https://store.com.evil.net/item/p" "https://store.com" = true := by
  decide
example : is_valid_pdp "https://other.net/x/p" "https://store.com" = false := by decide

/-! ## Platform classifier (app.py lines 334-354) -/

/-- The classifier's signature table, in priority order. -/
def SIGNATURES : List String :=
  ["vtex", "/api/catalog_system/", "vtexassets",
   "magento", "mage-init", "data-mage",
   "prestashop", "jolisearch",
   "cdn.shopify.com", "shopify",
   "woocommerce", "wp-content", "wc-add-to-cart",
   "tiendanube", "nuvemshop"]

/-- `_detect_platform_from_html` (app.py lines 334-354). -/
def detect_platform_from_html (html : String) : String :=
  let h := strLower html
  if pyIn "vtex" h || pyIn "/api/catalog_system/" h || pyIn "vtexassets" h then "vtex"
  else if pyIn "magento" h || pyIn "mage-init" h || pyIn "data-mage" h then "magento"
  else if pyIn "prestashop" h || pyIn "jolisearch" h then "prestashop"
  else if pyIn "cdn.shopify.com" h || pyIn "shopify" h then "shopify"
  else if pyIn "woocommerce" h || pyIn "wp-content" h || pyIn "wc-add-to-cart" h then
    "woocommerce"
  else if pyIn "tiendanube" h || pyIn "nuvemshop" h then "tiendanube"
  else "unknown"

example : detect_platform_from_html "" = "unknown" := by decide
example : detect_platform_from_html "<script src=x.VTEXASSETS.com/a.js>" = "vtex" := by
  decide

/-! ## Strategy registry (app.py lines 356-398)

`_search_recipes_for` maps a platform tag to an ordered list of
`(base, q) ↦ url` builders.  The `lru_cache` decoration is a memoization of a
pure function and is semantically transparent. -/

/-- The six generic search recipes returned for any unrecognized platform tag
(app.py lines 391-398). -/
def genericRecipes : List (String → String → String) :=
  [fun base q => rstripSlash base ++ "/search?q=" ++ q,
   fun base q => rstripSlash base ++ "/buscar?q=" ++ q,
   fun base q => rstripSlash base ++ "/busca?q=" ++ q,
   fun base q => rstripSlash base ++ "/catalogsearch/result/?q=" ++ q,
   fun base q => rstripSlash base ++ "/?s=" ++ q,
   fun base q => rstripSlash base ++ "/?q=" ++ q]

/-- `_search_recipes_for` (app.py lines 356-398). -/
def search_recipes_for (platform : String) : List (String → String → String) :=
  if platform = "vtex" then
    [fun base q =>
       rstripSlash base ++ "/api/catalog_system/pub/products/search/?fq=alternateIds_Ean:" ++ q,
     fun base q => rstripSlash base ++ "/api/catalog_system/pub/products/search/?ft=" ++ q,
     fun base q => rstripSlash base ++ "/" ++ q ++ "?_q=" ++ q ++ "&map=ft"]
  else if platform = "magento" then
    [fun base q => rstripSlash base ++ "/catalogsearch/result/?q=" ++ q]
  else if platform = "prestashop" then
    [fun base q => rstripSlash base ++ "/module/ambjolisearch/jolisearch?s=" ++ q,
     fun base q => rstripSlash base ++ "/search?controller=search&s=" ++ q,
     fun base q => rstripSlash base ++ "/?s=" ++ q]
  else if platform = "shopify" then
    [fun base q => rstripSlash base ++ "/search?q=" ++ q,
     fun base q => rstripSlash base ++ "/search/products?q=" ++ q]
  else if platform = "woocommerce" then
    [fun base q => rstripSlash base ++ "/?s=" ++ q,
     fun base q => rstripSlash base ++ "/?post_type=product&s=" ++ q]
  else if platform = "tiendanube" then
    [fun base q => rstripSlash base ++ "/buscar?q=" ++ q,
     fun base q => rstripSlash base ++ "/search?q=" ++ q]
  else genericRecipes

/-! ## Network and page model

A fetched page is identified with its parse-relevant content; the transport
is an oracle mapping each URL to a failure or a `(status, body)` response. -/

/-- A product record of the VTEX structured API (the fields read by the
resolver: `link` and `linkText`; an absent key is `none`). -/
structure ProdRec where
  link : Option String
  linkText : Option String
deriving DecidableEq

/-- The JSON parse of a response body, as far as the resolver inspects it:
either a list of product records or some other JSON value. -/
inductive JsonVal where
  | list (xs : List ProdRec)
  | other
deriving DecidableEq

/-- The `item` object of a JSON-LD `ListItem` (`url` and `@id` fields). -/
structure LdRef where
  url : Option String
  id : Option String
deriving DecidableEq

/-- One element of a JSON-LD `itemListElement` array. -/
structure LdItem where
  url : Option String
  item : Option LdRef
deriving DecidableEq

/-- One JSON-LD node (`@type` plus its `itemListElement`). -/
structure LdNode where
  typ : Option String
  items : List LdItem
deriving DecidableEq

/-- The parse-relevant content of one fetched page: its raw text, the
canonical `<link rel=canonical>` href, the JSON-LD nodes, the anchor `href`s
in document order, and the JSON parse of the body when it is valid JSON. -/
structure Body where
  text : String
  canonical : Option String
  ld : List LdNode
  anchors : List String
  json : Option JsonVal
deriving DecidableEq

/-- One transport result: connection error / timeout / raised exception, or a
response with a status code and a body. -/
inductive FetchResult where
  | failure
  | success (status : Nat) (body : Body)
deriving DecidableEq

/-- The transport oracle: what one GET of each URL returns. -/
def Net : Type := String → FetchResult

/-- `fetch_text` (app.py lines 186-193): the body text on a 200 response with
non-empty text, `None` on any error, non-200 status, or empty text. -/
def fetch_text (net : Net) (url : String) : Option Body :=
  match net url with
  | .failure => none
  | .success status body =>
    if status = 200 && body.text ≠ "" then some body else none

/-- `fetch_json` (app.py lines 171-183): the JSON parse on a 200 response,
`None` on any error, non-200 status, or unparseable payload. -/
def fetch_json (net : Net) (url : String) : Option JsonVal :=
  match net url with
  | .failure => none
  | .success status body => if status = 200 then body.json else none

/-! ## Candidate extraction (app.py lines 263-332 and 400-430) -/

/-- Python truthiness of an optional string (`None` and `""` are falsy). -/
def pyTruthyO : Option String → Bool
  | none => false
  | some s => s ≠ ""

/-- Python `a or b` on optional strings under string truthiness. -/
def pyOrO (a b : Option String) : Option String :=
  if pyTruthyO a then a else b

/-- `_abs` (app.py lines 263-268): absolutize an href against the store base. -/
def pyAbs (base href : String) : String :=
  if href = "" then ""
  else
    let href := pyStrip href
    if pyStartsWith href "//" then "https:" ++ href
    else if pyStartsWith href "http" then href
    else urljoinSlash (rstripSlash base ++ "/") (lstripSlash href)

/-- `_find_canonical` (app.py lines 324-332): the stripped canonical href, if
the tag exists and its href is truthy. -/
def find_canonical (b : Body) : Option String :=
  match b.canonical with
  | none => none
  | some h => if h ≠ "" then some (pyStrip h) else none

/-- The `url` chosen from one `itemListElement` entry (app.py lines 316-321):
`el.get("url")`, falling back to `el["item"].get("url") or el["item"].get("@id")`
when the former is falsy and an `item` object exists. -/
def ldItemUrl (el : LdItem) : Option String :=
  let url := el.url
  let url :=
    match el.item with
    | some ref => if pyTruthyO url then url else pyOrO ref.url ref.id
    | none => url
  if pyTruthyO url then url else none

/-- `_first_url_from_itemlist` (app.py lines 310-322): the first truthy URL
inside an `ItemList`/`CollectionPage` JSON-LD node. -/
def first_url_from_itemlist (nodes : List LdNode) : Option String :=
  match nodes with
  | [] => none
  | node :: rest =>
    if node.typ = some "ItemList" || node.typ = some "CollectionPage" then
      match node.items.findSome? ldItemUrl with
      | some u => some u
      | none => first_url_from_itemlist rest
    else first_url_from_itemlist rest

/-- The anchor pass of `_first_pdp_from_html_generic` (app.py lines 420-428). -/
def anchorScan (base basehost platform : String) : List String → Option String
  | [] => none
  | a :: rest =>
    if pyAbs base a = "" then anchorScan base basehost platform rest
    else if !(pyEndsWith (host (pyAbs base a)) basehost) then
      anchorScan base basehost platform rest
    else if seems_pdp (pyAbs base a) platform then some (pyAbs base a)
    else anchorScan base basehost platform rest

/-- The acceptance test both the canonical and the item-list passes of
`_first_pdp_from_html_generic` apply to a raw URL (app.py lines 406-417): a
truthy URL, absolutized, whose host ends with the base host and which looks
like a PDP for the platform. -/
def candCheck (base platform basehost url : String) : Option String :=
  if url ≠ "" then
    if pyEndsWith (host (pyAbs base url)) basehost && seems_pdp (pyAbs base url) platform
    then some (pyAbs base url) else none
  else none

/-- `_first_pdp_from_html_generic` (app.py lines 400-430): canonical link,
then JSON-LD item list, then first qualifying anchor. -/
def first_pdp_from_html_generic (b : Body) (base platform : String) : Option String :=
  if b.text = "" then none
  else
    match (find_canonical b).bind (candCheck base platform (host base)) with
    | some u => some u
    | none =>
      match (first_url_from_itemlist b.ld).bind (candCheck base platform (host base)) with
      | some u => some u
      | none => anchorScan base (host base) platform b.anchors

/-! ## The generic store resolver (app.py lines 433-487) -/

/-- The VTEX exact-EAN structured API URL built inside `lookup_generic`
(app.py line 447). -/
def vtexApiFq (b ean : String) : String :=
  b ++ "/api/catalog_system/pub/products/search/?fq=alternateIds_Ean:" ++ ean

/-- The VTEX full-text structured API URL built inside `lookup_generic`
(app.py line 457). -/
def vtexApiFt (b ean : String) : String :=
  b ++ "/api/catalog_system/pub/products/search/?ft=" ++ ean

/-- The link a VTEX structured-API response yields inside `lookup_generic`
(app.py lines 449-456 and 459-466): the first record's `link` (or `linkText`)
stripped; when relative, prefixed with the base and suffixed with `/p` unless
already present.  `none` when the response is not a non-empty list or the
field is empty. -/
def vtexApiLink (b : String) (data : Option JsonVal) : Option String :=
  match data with
  | some (.list (prod :: _)) =>
    let link := pyStrip ((pyOrO prod.link prod.linkText).getD "")
    if link ≠ "" then
      if pyStartsWith link "http" then some link
      else
        let link := b ++ "/" ++ link
        some (if pyEndsWith link "/p" then link else link ++ "/p")
    else none
  | _ => none

/-- The strategy loop of `lookup_generic` (app.py lines 468-487): for each
recipe, fetch the built URL; on text, take the first plausible PDP; the
verification fetch (lines 477-485) returns the candidate whether or not the
identifier appears in the PDP body. -/
def scanRecipes (net : Net) (b ean platform : String) :
    List (String → String → String) → String
  | [] => "no encontrado"
  | build :: rest =>
    match fetch_text net (build b ean) with
    | none => scanRecipes net b ean platform rest
    | some body =>
      match first_pdp_from_html_generic body b platform with
      | some u =>
        if u ≠ "" then
          match fetch_text net u with
          | some pdp => if pyIn ean pdp.text then u else u
          | none => u
        else scanRecipes net b ean platform rest
      | none => scanRecipes net b ean platform rest

/-- `lookup_generic` (app.py lines 433-487): detect the platform from the
home page, privilege the VTEX structured API when VTEX was detected, then
iterate the platform's search recipes; `"no encontrado"` when everything
fails. -/
def lookup_generic (net : Net) (base_url ean : String) : String :=
  let b := rstripSlash base_url
  let home := fetch_text net b
  let platform :=
    detect_platform_from_html (match home with | some x => x.text | none => "")
  let api1 : Option String :=
    if platform = "vtex" then vtexApiLink b (fetch_json net (vtexApiFq b ean)) else none
  match api1 with
  | some link => link
  | none =>
    let api2 : Option String :=
      if platform = "vtex" then vtexApiLink b (fetch_json net (vtexApiFt b ean)) else none
    match api2 with
    | some link => link
    | none => scanRecipes net b ean platform (search_recipes_for platform)

/-! ## The batch scheduler (app.py lines 754-796)

`process_eans` sanitizes every raw identifier; an identifier that normalizes
to the empty string produces a row of `"no encontrado"` cells without any
store lookup; otherwise one `task_for` invocation per selected store runs the
store's handler under `asyncio.wait_for(·, PER_STORE_TIMEOUT)`, mapping a
`TimeoutError` or any other exception to `"no encontrado"`; `asyncio.gather`
returns the per-store results in the stores' order and the row dict is
`{"EAN": ean}` updated with one key per store. -/

/-- The settled outcome of one `task_for` invocation: the handler's value, a
timeout expiry, or any other raised exception. -/
inductive Outcome where
  | ok (v : String)
  | timeout
  | error
deriving DecidableEq

/-- An oracle giving, for each `(store_name, base_url, ean)` invocation, the
settled outcome of the store handler under its timeout. -/
def OutcomeFn : Type := String → String → String → Outcome

/-- The cell value `task_for` produces (app.py lines 773-784): the handler's
value, or `"no encontrado"` on `asyncio.TimeoutError` or any exception. -/
def outcomeCell : Outcome → String
  | .ok v => v
  | .timeout => "no encontrado"
  | .error => "no encontrado"

/-- Python dict insertion on an association list: update in place if the key
exists, else append. -/
def pyDictInsert (r : List (String × String)) (k v : String) : List (String × String) :=
  match r with
  | [] => [(k, v)]
  | (k', v') :: rest =>
    if k' = k then (k, v) :: rest else (k', v') :: pyDictInsert rest k v

/-- Association-list lookup (Python dict read). -/
def lookupA (k : String) : List (String × String) → Option String
  | [] => none
  | (k', v) :: rest => if k' = k then some v else lookupA k rest

/-- One output row of `process_eans` (app.py lines 762-791): the dict
`{"EAN": …}` extended with one entry per selected store. -/
def rowFor (stores : List (String × String)) (outcome : OutcomeFn)
    (raw : Option String) : List (String × String) :=
  let e := sanitize_ean raw
  if e = "" then
    stores.foldl (fun r p => pyDictInsert r p.1 "no encontrado") [("EAN", pyStr raw)]
  else
    stores.foldl (fun r p => pyDictInsert r p.1 (outcomeCell (outcome p.1 p.2 e)))
      [("EAN", e)]

/-- The result of a batch: the rows in input order, plus the trace of store
handler invocations `(store_name, base_url, ean)` the batch scheduled. -/
structure Batch where
  rows : List (List (String × String))
  log : List (String × String × String)
deriving DecidableEq

/-- `process_eans` (app.py lines 754-796) with an explicit invocation trace. -/
def process_eans (eans : List (Option String)) (stores : List (String × String))
    (outcome : OutcomeFn) : Batch :=
  match eans with
  | [] => ⟨[], []⟩
  | raw :: rest =>
    let e := sanitize_ean raw
    let calls : List (String × String × String) :=
      if e = "" then [] else stores.map fun p => (p.1, p.2, e)
    let b := process_eans rest stores outcome
    ⟨rowFor stores outcome raw :: b.rows, calls ++ b.log⟩

/-! ## Helper lemmas -/

theorem isNd_not_space (n : Nat) (h : isNd n = true) : isPySpaceN n = false := by
  by_contra hc
  have hs : isPySpaceN n = true := by
    cases hv : isPySpaceN n
    · exact absurd hv hc
    · rfl
  simp only [isNd, Bool.or_eq_true, Bool.and_eq_true, decide_eq_true_eq] at h
  simp only [isPySpaceN, Bool.or_eq_true, Bool.and_eq_true, decide_eq_true_eq,
    beq_iff_eq] at hs
  omega

theorem pyIsDigit_not_space {c : Char} (h : pyIsDigit c = true) : pyIsSpace c = false :=
  isNd_not_space c.toNat h

theorem dropWhile_idem {α : Type} (p : α → Bool) (l : List α) :
    (l.dropWhile p).dropWhile p = l.dropWhile p := by
  induction l with
  | nil => rfl
  | cons a t ih =>
    by_cases h : p a = true
    · simp [List.dropWhile_cons, h, ih]
    · simp only [Bool.not_eq_true] at h
      simp [List.dropWhile_cons, h]

theorem dropWhile_of_all_not {α : Type} (p : α → Bool) (l : List α)
    (h : ∀ a ∈ l, p a = false) : l.dropWhile p = l := by
  cases l with
  | nil => rfl
  | cons a t => simp [List.dropWhile_cons, h a (List.mem_cons_self a t)]

theorem pyStripL_of_all_not_space (l : List Char) (h : ∀ c ∈ l, pyIsSpace c = false) :
    pyStripL l = l := by
  unfold pyStripL
  rw [dropWhile_of_all_not _ _ h,
    dropWhile_of_all_not _ _ (fun c hc => h c (List.mem_reverse.mp hc)),
    List.reverse_reverse]

theorem filter_idem {α : Type} (p : α → Bool) (l : List α) :
    (l.filter p).filter p = l.filter p := by
  induction l with
  | nil => rfl
  | cons a t ih =>
    by_cases h : p a = true
    · simp [List.filter_cons, h, ih]
    · simp only [Bool.not_eq_true] at h
      simp [List.filter_cons, h, ih]

theorem rstripSlash_idem (s : String) : rstripSlash (rstripSlash s) = rstripSlash s := by
  unfold rstripSlash
  simp [dropWhile_idem]

theorem fetch_text_some_text {net : Net} {url : String} {b : Body}
    (h : fetch_text net url = some b) : b.text ≠ "" := by
  cases hn : net url with
  | failure => simp [fetch_text, hn] at h
  | success st body =>
    simp only [fetch_text, hn] at h
    split at h
    · cases h
      next hcond =>
        simp only [Bool.and_eq_true, decide_eq_true_eq] at hcond
        exact hcond.2
    · cases h

theorem fetch_text_of_failure {net : Net} {url : String} (h : net url = .failure) :
    fetch_text net url = none := by
  unfold fetch_text; rw [h]

theorem fetch_json_of_failure {net : Net} {url : String} (h : net url = .failure) :
    fetch_json net url = none := by
  unfold fetch_json; rw [h]

/-! Dict lemmas for the row construction of `process_eans`. -/

theorem lookupA_insert_self (r : List (String × String)) (k v : String) :
    lookupA k (pyDictInsert r k v) = some v := by
  induction r with
  | nil => simp [pyDictInsert, lookupA]
  | cons p rest ih =>
    by_cases h : p.1 = k
    · simp [pyDictInsert, h, lookupA]
    · simp [pyDictInsert, h, lookupA, ih]

theorem lookupA_insert_ne (r : List (String × String)) (k v k' : String) (h : k' ≠ k) :
    lookupA k' (pyDictInsert r k v) = lookupA k' r := by
  have hkk : ¬ k = k' := fun hk => h hk.symm
  induction r with
  | nil =>
    simp only [pyDictInsert, lookupA]
    rw [if_neg hkk]
  | cons p rest ih =>
    by_cases hp : p.1 = k
    · simp only [pyDictInsert, if_pos hp, lookupA]
      rw [if_neg hkk, if_neg (hp ▸ hkk : ¬ p.1 = k')]
    · simp only [pyDictInsert, if_neg hp, lookupA]
      by_cases hp' : p.1 = k'
      · rw [if_pos hp', if_pos hp']
      · rw [if_neg hp', if_neg hp', ih]

theorem keys_insert (r : List (String × String)) (k v : String) :
    (pyDictInsert r k v).map Prod.fst =
      if k ∈ r.map Prod.fst then r.map Prod.fst else r.map Prod.fst ++ [k] := by
  induction r with
  | nil => simp [pyDictInsert]
  | cons p rest ih =>
    by_cases h : p.1 = k
    · simp [pyDictInsert, h]
    · have hne : ¬ k = p.1 := fun hk => h hk.symm
      by_cases hm : k ∈ rest.map Prod.fst
      · simp [pyDictInsert, h, ih, hne, hm]
      · simp [pyDictInsert, h, ih, hne, hm]

theorem foldl_insert_lookup_preserve (ps : List (String × String))
    (f : String × String → String) (init : List (String × String)) (n : String)
    (h : n ∉ ps.map Prod.fst) :
    lookupA n (ps.foldl (fun r p => pyDictInsert r p.1 (f p)) init) = lookupA n init := by
  induction ps generalizing init with
  | nil => rfl
  | cons p rest ih =>
    simp only [List.map_cons, List.mem_cons, not_or] at h
    rw [List.foldl_cons, ih _ h.2, lookupA_insert_ne _ _ _ _ h.1]

theorem foldl_insert_lookup (ps : List (String × String)) (f : String × String → String)
    (init : List (String × String)) (n u : String)
    (hnd : (ps.map Prod.fst).Nodup) (hmem : (n, u) ∈ ps) :
    lookupA n (ps.foldl (fun r p => pyDictInsert r p.1 (f p)) init) = some (f (n, u)) := by
  induction ps generalizing init with
  | nil => cases hmem
  | cons p rest ih =>
    simp only [List.map_cons, List.nodup_cons] at hnd
    rcases List.mem_cons.mp hmem with hp | hrest
    · subst hp
      rw [List.foldl_cons, foldl_insert_lookup_preserve rest f _ n hnd.1,
        lookupA_insert_self]
    · rw [List.foldl_cons]
      exact ih _ hnd.2 hrest

theorem foldl_insert_keys (ps : List (String × String)) (f : String × String → String)
    (init : List (String × String))
    (h : (init.map Prod.fst ++ ps.map Prod.fst).Nodup) :
    (ps.foldl (fun r p => pyDictInsert r p.1 (f p)) init).map Prod.fst =
      init.map Prod.fst ++ ps.map Prod.fst := by
  induction ps generalizing init with
  | nil => simp
  | cons p rest ih =>
    have hnotin : p.1 ∉ init.map Prod.fst := by
      intro hmem
      exact (List.nodup_append.mp h).2.2 hmem (by simp)
    have hkeys : (pyDictInsert init p.1 (f p)).map Prod.fst =
        init.map Prod.fst ++ [p.1] := by
      rw [keys_insert, if_neg hnotin]
    have h' : ((pyDictInsert init p.1 (f p)).map Prod.fst ++ rest.map Prod.fst).Nodup := by
      rw [hkeys, List.append_assoc]
      simpa using h
    rw [List.foldl_cons, ih _ h', hkeys, List.append_assoc]
    rfl

theorem process_eans_rows (eans : List (Option String)) (stores : List (String × String))
    (outcome : OutcomeFn) :
    (process_eans eans stores outcome).rows = eans.map (rowFor stores outcome) := by
  induction eans with
  | nil => rfl
  | cons raw rest ih => simp [process_eans, ih]

theorem process_eans_log (eans : List (Option String)) (stores : List (String × String))
    (outcome : OutcomeFn) :
    (process_eans eans stores outcome).log =
      eans.flatMap fun raw =>
        if sanitize_ean raw = "" then []
        else stores.map fun p => (p.1, p.2, sanitize_ean raw) := by
  induction eans with
  | nil => rfl
  | cons raw rest ih =>
    by_cases h : sanitize_ean raw = "" <;> simp [process_eans, ih, h]

theorem sanitize_of_digits (l : List Char) :
    sanitize_ean (some (String.mk (l.filter pyIsDigit))) = String.mk (l.filter pyIsDigit) := by
  have hall : ∀ c ∈ l.filter pyIsDigit, pyIsSpace c = false :=
    fun c hc => pyIsDigit_not_space (List.mem_filter.mp hc).2
  have hstrip : pyStrip (String.mk (l.filter pyIsDigit)) = String.mk (l.filter pyIsDigit) := by
    unfold pyStrip
    rw [show (String.mk (l.filter pyIsDigit)).toList = l.filter pyIsDigit from rfl,
      pyStripL_of_all_not_space _ hall]
  have hend : pyEndsWith (String.mk (l.filter pyIsDigit)) ".0" = false := by
    by_contra hc
    have htrue : pyEndsWith (String.mk (l.filter pyIsDigit)) ".0" = true := by
      cases hv : pyEndsWith (String.mk (l.filter pyIsDigit)) ".0"
      · exact absurd hv hc
      · rfl
    have hsuf : [ '.', '0' ] <:+ l.filter pyIsDigit := of_decide_eq_true htrue
    have hmem : '.' ∈ l.filter pyIsDigit := hsuf.subset (by simp)
    have hdig := (List.mem_filter.mp hmem).2
    simp [pyIsDigit, isNd] at hdig
  simp only [sanitize_ean]
  rw [hstrip, hend]
  simp only [Bool.false_eq_true, if_false]
  rw [show (String.mk (l.filter pyIsDigit)).toList = l.filter pyIsDigit from rfl,
    filter_idem]

/-- C4: the identifier normalizer is idempotent:
`sanitize_ean(sanitize_ean(x)) == sanitize_ean(x)` for every input. -/
theorem sanitize_ean_idempotent (v : Option String) :
    sanitize_ean (some (sanitize_ean v)) = sanitize_ean v := by
  cases v with
  | none => decide
  | some raw =>
    exact sanitize_of_digits
      ((if pyEndsWith (pyStrip raw) ".0" then strDropRight (pyStrip raw) 2
        else pyStrip raw).toList)

/-- C3 (counterexample): the claim says the normalizer returns a string of
ASCII digits only, but Python's `\D` leaves every Unicode decimal digit in
place: on the Arabic-Indic digit `"٧"` the output is `"٧"`, which contains
no ASCII digit. -/
theorem sanitize_ean_c3_cex :
    sanitize_ean (some "٧") = "٧" ∧ ("٧".toList.all Char.isDigit) = false := by decide

/-- C3 (amended): the normalizer returns a string of decimal digits (Unicode
category Nd — ASCII digits for ASCII input) with leading zeros preserved, by
stripping whitespace, removing one trailing `".0"`, and deleting every
non-digit; `None`/empty input yields `""` and no input raises. -/
theorem sanitize_ean_c3 :
    (∀ v, ((sanitize_ean v).toList.all pyIsDigit) = true)
    ∧ sanitize_ean none = ""
    ∧ sanitize_ean (some "") = ""
    ∧ sanitize_ean (some "7793742007897.0") = "7793742007897"
    ∧ sanitize_ean (some " 779-374 ") = "779374"
    ∧ sanitize_ean (some "0070") = "0070" := by
  refine ⟨?_, by decide, by decide, by decide, by decide, by decide⟩
  intro v
  cases v with
  | none => decide
  | some raw =>
    simp only [sanitize_ean]
    rw [List.all_eq_true]
    intro c hc
    exact (List.mem_filter.mp hc).2

/-- C5: the platform classifier matches signatures case-insensitively with
VTEX first; any HTML containing `"vtexassets.com"` (or the higher-priority
signature `"vtex"`) classifies as VTEX; empty HTML or HTML containing no
known signature classifies as `"unknown"`; the classifier is a total
function, so it never raises. -/
theorem detect_platform_c5 :
    (∀ h, pyIn "vtexassets.com" (strLower h) = true →
        detect_platform_from_html h = "vtex")
    ∧ (∀ h, pyIn "vtex" (strLower h) = true → detect_platform_from_html h = "vtex")
    ∧ detect_platform_from_html "" = "unknown"
    ∧ (∀ h, (∀ s ∈ SIGNATURES, pyIn s (strLower h) = false) →
        detect_platform_from_html h = "unknown") := by
  have key : ∀ h, pyIn "vtex" (strLower h) = true → detect_platform_from_html h = "vtex" := by
    intro h hin
    simp only [detect_platform_from_html, hin, Bool.true_or, if_true]
  refine ⟨?_, key, by decide, ?_⟩
  · intro h hin
    have h1 : "vtexassets.com".toList <:+: (strLower h).toList := of_decide_eq_true hin
    have h2 : "vtex".toList <:+: "vtexassets.com".toList := by decide
    exact key h (decide_eq_true (h2.trans h1))
  · intro h hsig
    have s1 := hsig "vtex" (by decide)
    have s2 := hsig "/api/catalog_system/" (by decide)
    have s3 := hsig "vtexassets" (by decide)
    have s4 := hsig "magento" (by decide)
    have s5 := hsig "mage-init" (by decide)
    have s6 := hsig "data-mage" (by decide)
    have s7 := hsig "prestashop" (by decide)
    have s8 := hsig "jolisearch" (by decide)
    have s9 := hsig "cdn.shopify.com" (by decide)
    have s10 := hsig "shopify" (by decide)
    have s11 := hsig "woocommerce" (by decide)
    have s12 := hsig "wp-content" (by decide)
    have s13 := hsig "wc-add-to-cart" (by decide)
    have s14 := hsig "tiendanube" (by decide)
    have s15 := hsig "nuvemshop" (by decide)
    simp only [detect_platform_from_html, s1, s2, s3, s4, s5, s6, s7, s8, s9, s10, s11,
      s12, s13, s14, s15, Bool.or_self, Bool.false_eq_true, if_false]

/-- Witness for C5 at concrete inputs. -/
theorem detect_platform_c5_witness :
    pyIn "vtexassets.com" (strLower "<script src=x.VTEXASSETS.COM/a.js>") = true
    ∧ detect_platform_from_html "<script src=x.VTEXASSETS.COM/a.js>" = "vtex"
    ∧ detect_platform_from_html "<div>nothing here</div>" = "unknown" :=
  ⟨by decide, detect_platform_c5.1 "<script src=x.VTEXASSETS.COM/a.js>" (by decide),
    detect_platform_c5.2.2.2 "<div>nothing here</div>" (by decide)⟩

/-- The candidate denylist of `_seems_pdp` as the amended C6 claim states it:
login, account, customer, cart, checkout, wishlist, offer/sale pages, and
help pages — `orders` is not on it. -/
def bannedFragmentsSpec : List String :=
  ["/login", "/account", "/customer", "/cart", "/checkout", "/wishlist",
   "/ofertas", "/sale", "/help", "/ayuda"]

/-- The platform shape tests of the C6 claim, as the claim words them. -/
def shapeSpec (platform path : String) : Bool :=
  if platform = "vtex" then pyEndsWith (rstripSlash path) "/p"
  else if platform = "magento" then pyEndsWith path ".html"
  else if platform = "prestashop" then pyEndsWith path ".html"
  else if platform = "shopify" then pyIn "/products/" path
  else if platform = "woocommerce" then
    pyIn "/product/" path && !(pyIn "/product-category/" path)
  else if platform = "tiendanube" then
    pyIn "/productos/" path && !(pyIn "/colecciones/" path)
  else
    (["/product", "/producto", "/products", "/productos"].any fun seg => pyIn seg path) ||
      pyEndsWith path ".html"

/-- The candidate validator as the amended C6 claim describes it: reject on a
denylisted fragment anywhere in the lowercased URL, otherwise apply the
platform shape test to the URL path. -/
def seems_pdp_spec (u platform : String) : Bool :=
  !(bannedFragmentsSpec.any fun x => pyIn x (strLower u)) &&
    shapeSpec platform (pyUrlparse (strLower u)).path

/-- C6 (counterexample): the claim's denylist includes `orders`, but
`BANNED_FRAGMENTS` does not: a URL containing `/orders/` with a VTEX-shaped
path is accepted by `_seems_pdp`. -/
theorem seems_pdp_c6_cex :
    pyIn "/orders" (strLower "https://store.com/orders/item/p") = true
    ∧ seems_pdp "https://store.com/orders/item/p" "vtex" = true := by decide

/-- C6 (amended): `_seems_pdp` first rejects any URL whose lowercase form
contains a denylisted fragment (login, account, customer, cart, checkout,
wishlist, offer/sale pages, help pages — not orders), and otherwise applies
the platform shape test on the URL path exactly as the claim lists it. -/
theorem seems_pdp_c6 : ∀ u platform, seems_pdp u platform = seems_pdp_spec u platform := by
  intro u p
  have hlist : bannedFragmentsSpec = BANNED_FRAGMENTS := rfl
  unfold seems_pdp seems_pdp_spec
  rw [hlist]
  cases hB : BANNED_FRAGMENTS.any fun x => pyIn x (strLower u)
  · simp only [hB, Bool.false_eq_true, if_false, Bool.not_false, Bool.true_and]
    rfl
  · simp only [hB, if_true, Bool.not_true, Bool.false_and]

/-- The platform tags `_search_recipes_for` special-cases. -/
def knownPlatforms : List String :=
  ["vtex", "magento", "prestashop", "shopify", "woocommerce", "tiendanube"]

/-- C10: the strategy registry returns a non-empty list for every platform
tag, every unrecognized tag (any string outside the known six) gets the same
six-entry generic list, and the registry is total. -/
theorem search_recipes_c10 :
    (∀ p, search_recipes_for p ≠ [])
    ∧ (∀ p, p ∉ knownPlatforms → search_recipes_for p = genericRecipes)
    ∧ genericRecipes.length = 6 := by
  refine ⟨?_, ?_, rfl⟩
  · intro p
    unfold search_recipes_for
    split_ifs <;> simp [genericRecipes]
  · intro p hp
    have h1 : ¬ p = "vtex" := fun h => hp (by rw [h]; decide)
    have h2 : ¬ p = "magento" := fun h => hp (by rw [h]; decide)
    have h3 : ¬ p = "prestashop" := fun h => hp (by rw [h]; decide)
    have h4 : ¬ p = "shopify" := fun h => hp (by rw [h]; decide)
    have h5 : ¬ p = "woocommerce" := fun h => hp (by rw [h]; decide)
    have h6 : ¬ p = "tiendanube" := fun h => hp (by rw [h]; decide)
    unfold search_recipes_for
    rw [if_neg h1, if_neg h2, if_neg h3, if_neg h4, if_neg h5, if_neg h6]

/-- Witness for C10: a tag outside the enumeration gets the generic list and
a known tag gets a non-empty list. -/
theorem search_recipes_c10_witness :
    ("myshop" ∉ knownPlatforms)
    ∧ search_recipes_for "myshop" = genericRecipes
    ∧ search_recipes_for "vtex" ≠ [] :=
  ⟨by decide, search_recipes_c10.2.1 "myshop" (by decide), search_recipes_c10.1 "vtex"⟩

theorem process_eans_row_get (eans : List (Option String)) (stores : List (String × String))
    (outcome : OutcomeFn) (i : Nat) (hi : i < eans.length)
    (hr : i < (process_eans eans stores outcome).rows.length) :
    (process_eans eans stores outcome).rows.get ⟨i, hr⟩ =
      rowFor stores outcome (eans.get ⟨i, hi⟩) := by
  induction eans generalizing i with
  | nil => exact absurd hi (by simp)
  | cons raw rest ih =>
    cases i with
    | zero => rfl
    | succ j =>
      have hj : j < rest.length := Nat.lt_of_succ_lt_succ hi
      have hjr : j < (process_eans rest stores outcome).rows.length := by
        rw [process_eans_rows]
        simpa using hj
      exact ih j hj hjr

theorem countP_map_store_eq (stores : List (String × String)) (p : String × String)
    (e : String) (hmem : p ∈ stores) (hnd : (stores.map Prod.fst).Nodup) :
    (stores.map fun q => (q.1, q.2, e)).countP
      (fun t => decide (t = (p.1, p.2, e))) = 1 := by
  induction stores with
  | nil => cases hmem
  | cons q rest ih =>
    simp only [List.map_cons, List.nodup_cons] at hnd
    rw [List.map_cons, List.countP_cons]
    by_cases hq : q = p
    · subst hq
      have hz : (rest.map fun q => (q.1, q.2, e)).countP
          (fun t => decide (t = (q.1, q.2, e))) = 0 := by
        rw [List.countP_eq_zero]
        intro t ht
        rcases List.mem_map.mp ht with ⟨r, hr, hrt⟩
        subst hrt
        simp only [decide_eq_true_eq, Prod.mk.injEq, not_and]
        intro h1 _
        exact absurd (h1 ▸ List.mem_map_of_mem Prod.fst hr) hnd.1
      simp [hz]
    · have hpred : (decide ((q.1, q.2, e) = (p.1, p.2, e))) = false := by
        simp only [decide_eq_false_iff_not, Prod.mk.injEq, not_and]
        intro h1 h2 _
        exact hq (Prod.ext h1 h2)
      rcases List.mem_cons.mp hmem with hqp | hrest
      · exact absurd hqp.symm hq
      · rw [hpred]
        simp [ih hrest hnd.2]

theorem countP_map_store_ne (stores : List (String × String)) (p : String × String)
    (e e2 : String) (hne : e2 ≠ e) :
    (stores.map fun q => (q.1, q.2, e2)).countP
      (fun t => decide (t = (p.1, p.2, e))) = 0 := by
  rw [List.countP_eq_zero]
  intro t ht
  rcases List.mem_map.mp ht with ⟨r, _, hrt⟩
  subst hrt
  simp only [decide_eq_true_eq, Prod.mk.injEq, not_and]
  intro _ _
  exact hne

theorem process_log_count (eans : List (Option String)) (stores : List (String × String))
    (outcome : OutcomeFn) (p : String × String) (e : String)
    (he : e ≠ "") (hmem : p ∈ stores) (hnd : (stores.map Prod.fst).Nodup) :
    (process_eans eans stores outcome).log.countP
        (fun t => decide (t = (p.1, p.2, e))) =
      eans.countP (fun raw => decide (sanitize_ean raw = e)) := by
  induction eans with
  | nil => rfl
  | cons raw rest ih =>
    have hlog : (process_eans (raw :: rest) stores outcome).log =
        (if sanitize_ean raw = "" then []
         else stores.map fun q => (q.1, q.2, sanitize_ean raw)) ++
          (process_eans rest stores outcome).log := rfl
    rw [hlog, List.countP_append, List.countP_cons]
    by_cases h0 : sanitize_ean raw = ""
    · have hne : (decide (sanitize_ean raw = e)) = false := by
        rw [h0]
        simp only [decide_eq_false_iff_not]
        exact fun hh => he hh.symm
      rw [if_pos h0, hne]
      simp [ih]
    · rw [if_neg h0]
      by_cases heq : sanitize_ean raw = e
      · rw [heq, countP_map_store_eq stores p e hmem hnd, ih]
        simp [Nat.add_comm]
      · rw [countP_map_store_ne stores p e _ heq, ih]
        simp [heq]

/-- C1: for N raw identifiers and M selected stores, `process_eans` returns
exactly N rows in input order; each row's columns are `EAN` followed by
exactly the M store slugs, and each store cell of row i is determined by its
own invocation on row i's identifier; a raw identifier that normalizes to
`""` gets the sentinel `"no encontrado"` in every store cell and schedules no
store lookup (the invocation trace contains entries only for rows with a
non-empty normalized identifier). -/
theorem process_eans_c1 (eans : List (Option String)) (stores : List (String × String))
    (outcome : OutcomeFn) (hnd : (stores.map Prod.fst).Nodup) :
    (process_eans eans stores outcome).rows.length = eans.length
    ∧ (∀ i (hi : i < eans.length)
        (hr : i < (process_eans eans stores outcome).rows.length),
        ("EAN" ∉ stores.map Prod.fst →
          ((process_eans eans stores outcome).rows.get ⟨i, hr⟩).map Prod.fst =
            "EAN" :: stores.map Prod.fst)
        ∧ (∀ p ∈ stores,
            lookupA p.1 ((process_eans eans stores outcome).rows.get ⟨i, hr⟩) =
              some (if sanitize_ean (eans.get ⟨i, hi⟩) = "" then "no encontrado"
                    else outcomeCell (outcome p.1 p.2 (sanitize_ean (eans.get ⟨i, hi⟩))))))
    ∧ (process_eans eans stores outcome).log =
        eans.flatMap fun raw =>
          if sanitize_ean raw = "" then []
          else stores.map fun p => (p.1, p.2, sanitize_ean raw) := by
  refine ⟨by rw [process_eans_rows]; simp, ?_, process_eans_log eans stores outcome⟩
  intro i hi hr
  rw [process_eans_row_get eans stores outcome i hi hr]
  constructor
  · intro hEAN
    unfold rowFor
    have hkeys : ((([("EAN", pyStr (eans.get ⟨i, hi⟩))] : List (String × String)).map
        Prod.fst) ++ stores.map Prod.fst).Nodup := by
      simp only [List.map_cons, List.map_nil]
      exact List.nodup_cons.mpr ⟨by simpa using hEAN, hnd⟩
    have hkeys2 : ((([("EAN", sanitize_ean (eans.get ⟨i, hi⟩))] :
        List (String × String)).map Prod.fst) ++ stores.map Prod.fst).Nodup := by
      simp only [List.map_cons, List.map_nil]
      exact List.nodup_cons.mpr ⟨by simpa using hEAN, hnd⟩
    by_cases h0 : sanitize_ean (eans.get ⟨i, hi⟩) = ""
    · rw [if_pos h0, foldl_insert_keys _ _ _ hkeys]
      rfl
    · rw [if_neg h0, foldl_insert_keys _ _ _ hkeys2]
      rfl
  · intro p hp
    unfold rowFor
    by_cases h0 : sanitize_ean (eans.get ⟨i, hi⟩) = ""
    · rw [if_pos h0, if_pos h0]
      exact foldl_insert_lookup stores (fun _ => "no encontrado") _ p.1 p.2 hnd hp
    · rw [if_neg h0, if_neg h0]
      exact foldl_insert_lookup stores
        (fun q => outcomeCell (outcome q.1 q.2 (sanitize_ean (eans.get ⟨i, hi⟩))))
        _ p.1 p.2 hnd hp

/-- Witness for C1 on a concrete batch: three raw identifiers (one valid, one
whitespace-only, one `None`) and two stores. -/
theorem process_eans_c1_witness :
    ((([("x", "https://x.test"), ("y", "https://y.test")] :
        List (String × String)).map Prod.fst).Nodup)
    ∧ (process_eans [some "7793742007897.0", some "  ", none]
        [("x", "https://x.test"), ("y", "https://y.test")]
        (fun n _ e => .ok (n ++ ":" ++ e))).rows.length = 3 :=
  ⟨by decide,
    (process_eans_c1 [some "7793742007897.0", some "  ", none]
      [("x", "https://x.test"), ("y", "https://y.test")]
      (fun n _ e => .ok (n ++ ":" ++ e)) (by decide)).1.trans (by decide)⟩

/-- C8: for a row whose identifier normalizes non-empty, each store cell is
exactly `outcomeCell` of that one invocation's settled outcome — so a timeout
expiry or an unhandled exception makes that one cell `"no encontrado"`, and
no cell depends on any other invocation's outcome; the invocation trace
contains the `(store, base, ean)` triple exactly once per row carrying that
identifier, so no retry happens within the batch. -/
theorem process_eans_c8 (eans : List (Option String)) (stores : List (String × String))
    (outcome : OutcomeFn) (hnd : (stores.map Prod.fst).Nodup)
    (i : Nat) (hi : i < eans.length)
    (hr : i < (process_eans eans stores outcome).rows.length)
    (he : sanitize_ean (eans.get ⟨i, hi⟩) ≠ "")
    (p : String × String) (hp : p ∈ stores) :
    lookupA p.1 ((process_eans eans stores outcome).rows.get ⟨i, hr⟩) =
      some (outcomeCell (outcome p.1 p.2 (sanitize_ean (eans.get ⟨i, hi⟩))))
    ∧ ((outcome p.1 p.2 (sanitize_ean (eans.get ⟨i, hi⟩)) = .timeout
        ∨ outcome p.1 p.2 (sanitize_ean (eans.get ⟨i, hi⟩)) = .error) →
        lookupA p.1 ((process_eans eans stores outcome).rows.get ⟨i, hr⟩) =
          some "no encontrado")
    ∧ (process_eans eans stores outcome).log.countP
        (fun t => decide (t = (p.1, p.2, sanitize_ean (eans.get ⟨i, hi⟩)))) =
        eans.countP
          (fun raw => decide (sanitize_ean raw = sanitize_ean (eans.get ⟨i, hi⟩))) := by
  have hcell : lookupA p.1 ((process_eans eans stores outcome).rows.get ⟨i, hr⟩) =
      some (outcomeCell (outcome p.1 p.2 (sanitize_ean (eans.get ⟨i, hi⟩)))) := by
    rw [process_eans_row_get eans stores outcome i hi hr]
    unfold rowFor
    rw [if_neg he]
    exact foldl_insert_lookup stores
      (fun q => outcomeCell (outcome q.1 q.2 (sanitize_ean (eans.get ⟨i, hi⟩))))
      _ p.1 p.2 hnd hp
  refine ⟨hcell, ?_, process_log_count eans stores outcome p _ he hp hnd⟩
  intro hout
  rw [hcell]
  rcases hout with h | h <;> rw [h] <;> rfl

/-- Witness for C8: a store invocation that times out resolves its one cell
to the sentinel, while the sibling store's cell keeps its own value. -/
theorem process_eans_c8_witness :
    lookupA "x" ((process_eans [some "123"]
        [("x", "https://x.test"), ("y", "https://y.test")]
        (fun n _ _ => if n = "x" then .timeout else .ok "https://y.test/a/p")).rows.get
          ⟨0, by decide⟩) = some "no encontrado"
    ∧ lookupA "y" ((process_eans [some "123"]
        [("x", "https://x.test"), ("y", "https://y.test")]
        (fun n _ _ => if n = "x" then .timeout else .ok "https://y.test/a/p")).rows.get
          ⟨0, by decide⟩) = some "https://y.test/a/p" :=
  ⟨(process_eans_c8 [some "123"] [("x", "https://x.test"), ("y", "https://y.test")]
      (fun n _ _ => if n = "x" then .timeout else .ok "https://y.test/a/p")
      (by decide) 0 (by decide) (by decide) (by decide)
      ("x", "https://x.test") (by decide)).2.1 (Or.inl (by decide)),
   ((process_eans_c8 [some "123"] [("x", "https://x.test"), ("y", "https://y.test")]
      (fun n _ _ => if n = "x" then .timeout else .ok "https://y.test/a/p")
      (by decide) 0 (by decide) (by decide) (by decide)
      ("y", "https://y.test") (by decide)).1).trans (by decide)⟩

/-- C9 (counterexample): the claim says each row holds the raw identifier as
provided, but for `"779-374"` the row's `EAN` cell holds the sanitized
`"779374"`, not the raw value. -/
theorem process_eans_c9_cex :
    (process_eans [some "779-374"] [("x", "https://x.test")]
        (fun _ _ _ => .ok "u")).rows = [[("EAN", "779374"), ("x", "u")]]
    ∧ ("779374" : String) ≠ "779-374" := by decide

/-- C9 (amended): each row's `EAN` cell holds the *sanitized* identifier when
normalization is non-empty, and `str(raw)` when it is empty; alongside it the
row holds exactly one resolution value per requested store. -/
theorem process_eans_c9 (eans : List (Option String)) (stores : List (String × String))
    (outcome : OutcomeFn) (hnd : (stores.map Prod.fst).Nodup)
    (hEAN : "EAN" ∉ stores.map Prod.fst)
    (i : Nat) (hi : i < eans.length)
    (hr : i < (process_eans eans stores outcome).rows.length) :
    lookupA "EAN" ((process_eans eans stores outcome).rows.get ⟨i, hr⟩) =
      some (if sanitize_ean (eans.get ⟨i, hi⟩) = "" then pyStr (eans.get ⟨i, hi⟩)
            else sanitize_ean (eans.get ⟨i, hi⟩))
    ∧ ∀ p ∈ stores,
        lookupA p.1 ((process_eans eans stores outcome).rows.get ⟨i, hr⟩) =
          some (if sanitize_ean (eans.get ⟨i, hi⟩) = "" then "no encontrado"
                else outcomeCell (outcome p.1 p.2 (sanitize_ean (eans.get ⟨i, hi⟩)))) := by
  rw [process_eans_row_get eans stores outcome i hi hr]
  unfold rowFor
  by_cases h0 : sanitize_ean (eans.get ⟨i, hi⟩) = ""
  · rw [if_pos h0]
    constructor
    · rw [foldl_insert_lookup_preserve stores _ _ "EAN" hEAN, if_pos h0]
      rfl
    · intro p hp
      rw [if_pos h0]
      exact foldl_insert_lookup stores (fun _ => "no encontrado") _ p.1 p.2 hnd hp
  · rw [if_neg h0]
    constructor
    · rw [foldl_insert_lookup_preserve stores _ _ "EAN" hEAN, if_neg h0]
      rfl
    · intro p hp
      rw [if_neg h0]
      exact foldl_insert_lookup stores
        (fun q => outcomeCell (outcome q.1 q.2 (sanitize_ean (eans.get ⟨i, hi⟩))))
        _ p.1 p.2 hnd hp

/-- Witness for C9 (amended) on a concrete batch with a sanitized identifier
and an empty one. -/
theorem process_eans_c9_witness :
    lookupA "EAN" ((process_eans [some " 779-374 ", some ""]
        [("x", "https://x.test")] (fun _ _ _ => .ok "u")).rows.get ⟨0, by decide⟩) =
      some "779374"
    ∧ lookupA "EAN" ((process_eans [some " 779-374 ", some ""]
        [("x", "https://x.test")] (fun _ _ _ => .ok "u")).rows.get ⟨1, by decide⟩) =
      some "" :=
  ⟨((process_eans_c9 [some " 779-374 ", some ""] [("x", "https://x.test")]
      (fun _ _ _ => .ok "u") (by decide) (by decide) 0 (by decide) (by decide)).1).trans
      (by decide),
   ((process_eans_c9 [some " 779-374 ", some ""] [("x", "https://x.test")]
      (fun _ _ _ => .ok "u") (by decide) (by decide) 1 (by decide) (by decide)).1).trans
      (by decide)⟩

theorem candCheck_some {base platform bh url u : String}
    (h : candCheck base platform bh url = some u) :
    pyEndsWith (host u) bh = true := by
  unfold candCheck at h
  split_ifs at h with h1 h2
  · injection h with h3
    subst h3
    simp only [Bool.and_eq_true] at h2
    exact h2.1

theorem anchorScan_some {base bh platform : String} :
    ∀ {l : List String} {u : String}, anchorScan base bh platform l = some u →
      pyEndsWith (host u) bh = true := by
  intro l
  induction l with
  | nil => intro u h; simp [anchorScan] at h
  | cons a rest ih =>
    intro u h
    unfold anchorScan at h
    split_ifs at h with h1 h2 h3
    · exact ih h
    · exact ih h
    · injection h with h4
      subst h4
      simp only [Bool.not_eq_true] at h2
      cases hv : pyEndsWith (host (pyAbs base a)) bh
      · rw [hv] at h2; cases h2
      · rfl
    · exact ih h

theorem first_pdp_host_suffix {b : Body} {base platform u : String}
    (h : first_pdp_from_html_generic b base platform = some u) :
    pyEndsWith (host u) (host base) = true := by
  unfold first_pdp_from_html_generic at h
  by_cases ht : b.text = ""
  · rw [if_pos ht] at h
    cases h
  · rw [if_neg ht] at h
    cases hc : (find_canonical b).bind (candCheck base platform (host base)) with
    | some v =>
      rw [hc] at h
      injection h with h2
      subst h2
      rcases Option.bind_eq_some.mp hc with ⟨canon, _, hcheck⟩
      exact candCheck_some hcheck
    | none =>
      rw [hc] at h
      cases hil : (first_url_from_itemlist b.ld).bind (candCheck base platform (host base)) with
      | some v =>
        rw [hil] at h
        injection h with h2
        subst h2
        rcases Option.bind_eq_some.mp hil with ⟨url, _, hcheck⟩
        exact candCheck_some hcheck
      | none =>
        rw [hil] at h
        exact anchorScan_some h

/-- C7 (counterexample): the claim says a candidate whose host neither equals
the base host nor continues it as a subdomain is rejected, but `is_valid_pdp`
only requires the base host to occur as a *substring* of the candidate host:
`store.com.evil.net` is accepted against base `store.com`. -/
theorem is_valid_pdp_c7_cex :
    is_valid_pdp "https://store.com.evil.net/item/p" "https://store.com" = true
    ∧ host "https://store.com.evil.net/item/p" ≠ host "https://store.com"
    ∧ pyEndsWith (host "https://store.com.evil.net/item/p")
        ("." ++ host "https://store.com") = false := by decide

/-- C7 (amended): `is_valid_pdp` rejects a candidate whenever the store's
base host is non-empty and is not a substring of the candidate's host (so a
candidate on an unrelated host with a platform-valid path is rejected, but a
host merely containing the base host as a substring may be accepted); the
generic extractor `_first_pdp_from_html_generic` only ever returns URLs whose
host ends with the base host. -/
theorem is_valid_pdp_c7 :
    (∀ url base_url : String,
        (pyUrlparse base_url).netloc ≠ "" →
        pyIn (pyUrlparse base_url).netloc
          (pyUrlparse (validFullUrl url base_url)).netloc = false →
        is_valid_pdp url base_url = false)
    ∧ (∀ (b : Body) (base platform u : String),
        first_pdp_from_html_generic b base platform = some u →
        pyEndsWith (host u) (host base) = true) := by
  constructor
  · intro url base_url h1 h2
    have hcond : ((pyUrlparse base_url).netloc ≠ "" &&
        !(pyIn (pyUrlparse base_url).netloc
          (pyUrlparse (validFullUrl url base_url)).netloc)) = true := by
      rw [h2]
      simp [h1]
    unfold is_valid_pdp
    split_ifs with hu hb <;> rfl
  · intro b base platform u h
    exact first_pdp_host_suffix h

/-- Witness for C7 (amended) at concrete inputs: an unrelated host is
rejected by `is_valid_pdp`, and the generic extractor returns a same-host
anchor whose host suffix-matches the base host. -/
theorem is_valid_pdp_c7_witness :
    ((pyUrlparse "https://store.com").netloc ≠ "")
    ∧ is_valid_pdp "https://other.net/x/p" "https://store.com" = false
    ∧ pyEndsWith (host "https://s.com/item/p") (host "https://s.com") = true :=
  ⟨by decide,
   is_valid_pdp_c7.1 "https://other.net/x/p" "https://store.com" (by decide) (by decide),
   is_valid_pdp_c7.2 ⟨"x", none, [], ["https://s.com/item/p"], none⟩ "https://s.com"
     "vtex" "https://s.com/item/p" (by decide)⟩

theorem vtexApiLink_empty (b : String) : vtexApiLink b (some (JsonVal.list [])) = none := rfl

theorem scan_step_skip {net : Net} {b ean platform url : String}
    {rest : List (String → String → String)} {build : String → String → String}
    (hurl : build b ean = url)
    (h : ((fetch_text net url).map fun x =>
        first_pdp_from_html_generic x b platform).getD none = none) :
    scanRecipes net b ean platform (build :: rest) = scanRecipes net b ean platform rest := by
  simp only [scanRecipes]
  rw [hurl]
  cases hfv : fetch_text net url with
  | none => rfl
  | some body =>
    rw [hfv] at h
    simp only [Option.map_some', Option.getD_some] at h
    simp only [h]

theorem scan_step_found {net : Net} {b ean platform url u : String} {h3 : Body}
    {rest : List (String → String → String)} {build : String → String → String}
    (hurl : build b ean = url)
    (hf : fetch_text net url = some h3)
    (hp : first_pdp_from_html_generic h3 b platform = some u)
    (hu : u ≠ "") :
    scanRecipes net b ean platform (build :: rest) = u := by
  simp only [scanRecipes]
  rw [hurl]
  simp only [hf, hp]
  rw [if_pos hu]
  cases fetch_text net u <;> simp

/-- C2: for the generic store resolver, (i) transport failures and non-200
responses make `fetch_text`/`fetch_json` yield nothing, and a step that
yields nothing is skipped in favour of the next strategy; (ii) when the
detected platform is VTEX, both structured-API queries return an empty
result list and the earlier recipes yield no candidate, a later HTML strategy
whose page contains one qualifying anchor makes the resolver return that
anchor's absolute URL; (iii) when every fetch fails the resolver returns the
sentinel `"no encontrado"`.  The resolver is a total function, so no step
can abort it. -/
theorem lookup_generic_c2 :
    (∀ (net : Net) (base_url ean anchor : String) (h3 : Body),
        detect_platform_from_html
            (match fetch_text net (rstripSlash base_url) with
             | some x => x.text
             | none => "") = "vtex" →
        fetch_json net (vtexApiFq (rstripSlash base_url) ean) = some (.list []) →
        fetch_json net (vtexApiFt (rstripSlash base_url) ean) = some (.list []) →
        ((fetch_text net (vtexApiFq (rstripSlash base_url) ean)).map fun x =>
            first_pdp_from_html_generic x (rstripSlash base_url) "vtex").getD none = none →
        ((fetch_text net (vtexApiFt (rstripSlash base_url) ean)).map fun x =>
            first_pdp_from_html_generic x (rstripSlash base_url) "vtex").getD none = none →
        fetch_text net
            (rstripSlash base_url ++ "/" ++ ean ++ "?_q=" ++ ean ++ "&map=ft") = some h3 →
        h3.canonical = none →
        h3.ld = [] →
        h3.anchors = [anchor] →
        pyAbs (rstripSlash base_url) anchor ≠ "" →
        pyEndsWith (host (pyAbs (rstripSlash base_url) anchor))
          (host (rstripSlash base_url)) = true →
        seems_pdp (pyAbs (rstripSlash base_url) anchor) "vtex" = true →
        lookup_generic net base_url ean = pyAbs (rstripSlash base_url) anchor)
    ∧ (∀ (net : Net) (base_url ean : String),
        (∀ u, net u = .failure) → lookup_generic net base_url ean = "no encontrado")
    ∧ (∀ (net : Net) (url : String),
        (net url = .failure ∨ ∃ st b, net url = .success st b ∧ st ≠ 200) →
        fetch_text net url = none ∧ fetch_json net url = none) := by
  refine ⟨?_, ?_, ?_⟩
  · intro net base_url ean anchor h3 hplat hjson1 hjson2 hr1 hr2 hr3 hcanon hld hanch
      habs hhost hseems
    have hfp : first_pdp_from_html_generic h3 (rstripSlash base_url) "vtex" =
        some (pyAbs (rstripSlash base_url) anchor) := by
      have htext : h3.text ≠ "" := fetch_text_some_text hr3
      have hfc : find_canonical h3 = none := by
        unfold find_canonical
        rw [hcanon]
      unfold first_pdp_from_html_generic
      rw [if_neg htext, hfc, hld]
      simp only [Option.none_bind, first_url_from_itemlist]
      rw [hanch]
      unfold anchorScan
      rw [if_neg (by exact habs), hhost]
      simp only [Bool.not_true, Bool.false_eq_true, if_false, hseems, if_true]
    simp only [lookup_generic, hplat, hjson1, hjson2, vtexApiLink_empty, ite_self]
    have hsrf : search_recipes_for "vtex" =
        [fun base q => rstripSlash base ++
            "/api/catalog_system/pub/products/search/?fq=alternateIds_Ean:" ++ q,
         fun base q =>
            rstripSlash base ++ "/api/catalog_system/pub/products/search/?ft=" ++ q,
         fun base q => rstripSlash base ++ "/" ++ q ++ "?_q=" ++ q ++ "&map=ft"] := rfl
    rw [hsrf]
    rw [scan_step_skip (by simp only [rstripSlash_idem]; rfl) hr1]
    rw [scan_step_skip (by simp only [rstripSlash_idem]; rfl) hr2]
    rw [scan_step_found (by simp only [rstripSlash_idem]) hr3 hfp habs]
  · intro net base_url ean hfail
    have hnone : ∀ u, fetch_text net u = none := fun u => fetch_text_of_failure (hfail u)
    have hdet : detect_platform_from_html "" = "unknown" := by decide
    simp only [lookup_generic, hnone, hdet]
    have hne : ¬ ("unknown" : String) = "vtex" := by decide
    rw [if_neg hne, if_neg hne]
    have hsrf : search_recipes_for "unknown" = genericRecipes := rfl
    rw [hsrf]
    unfold genericRecipes
    simp only [scanRecipes, hnone]
  · intro net url h
    rcases h with h | ⟨st, b, h, hst⟩
    · exact ⟨fetch_text_of_failure h, fetch_json_of_failure h⟩
    · constructor
      · unfold fetch_text
        rw [h]
        simp [hst]
      · unfold fetch_json
        rw [h]
        simp [hst]

/-- A VTEX-looking home page for the C2 witness scenario. -/
def c2HomeBody : Body := ⟨"vtexassets", none, [], [], none⟩

/-- A 200 response whose JSON parse is the empty product list. -/
def c2ApiBody : Body := ⟨"[]", none, [], [], some (.list [])⟩

/-- A search-results page containing exactly one qualifying anchor. -/
def c2SearchBody : Body := ⟨"results", none, [], ["https://s.com/item/p"], none⟩

/-- The witness transport: home and API urls respond, everything else fails. -/
def c2Net : Net := fun u =>
  if u = "https://s.com" then .success 200 c2HomeBody
  else if u =
      "https://s.com/api/catalog_system/pub/products/search/?fq=alternateIds_Ean:123" then
    .success 200 c2ApiBody
  else if u = "https://s.com/api/catalog_system/pub/products/search/?ft=123" then
    .success 200 c2ApiBody
  else if u = "https://s.com/123?_q=123&map=ft" then .success 200 c2SearchBody
  else .failure

/-- Witness for C2: the fallback scenario resolves to the anchor URL, the
all-failures scenario resolves to the sentinel, and a failed fetch yields
nothing. -/
theorem lookup_generic_c2_witness :
    lookup_generic c2Net "https://s.com" "123" = "https://s.com/item/p"
    ∧ lookup_generic (fun _ => .failure) "https://x.com" "9" = "no encontrado"
    ∧ fetch_text (fun _ => .failure) "https://x.com" = none :=
  ⟨(lookup_generic_c2.1 c2Net "https://s.com" "123" "https://s.com/item/p" c2SearchBody
      (by decide) (by decide) (by decide) (by decide) (by decide) (by decide)
      (by decide) (by decide) (by decide) (by decide) (by decide) (by decide)).trans
      (by decide),
   lookup_generic_c2.2.1 (fun _ => .failure) "https://x.com" "9" (fun _ => rfl),
   (lookup_generic_c2.2.2 (fun _ => .failure) "https://x.com" (Or.inl rfl)).1⟩
